import Mathlib

/-
Verification of the rust-websocket core (src/result.rs and src/stream.rs):
a shallow embedding of the error taxonomy, its conversion rules, and the
WebSocketStream transport union, with theorems checking the specification.
-/

namespace RustWebsocket

/-! ## Opaque collaborator error payloads

The hyper, url, native_tls and std::io error types are opaque to this core:
result.rs only stores them, compares nothing inside them, and (for io::Error
alone) delegates to their description. Each is modelled as a wrapper around
the one observation the core can make of it. -/

/-- Opaque error of the HTTP parsing collaborator (hyper::Error). -/
structure HttpErr where
  msg : String
  deriving DecidableEq, Repr

/-- Opaque error of the URL parsing collaborator (url::ParseError). -/
structure ParseErr where
  msg : String
  deriving DecidableEq, Repr

/-- Opaque error of the TLS collaborator (native_tls::Error). -/
structure TlsErr where
  msg : String
  deriving DecidableEq, Repr

/-- std::io::Error; its description() is the one observation result.rs makes
of it (WebSocketOtherError::IoError delegates description to it). -/
structure IoErr where
  descr : String
  deriving DecidableEq, Repr

/-- description() of a std::io::Error, as delegated to by result.rs. -/
def IoErr.description (e : IoErr) : String := e.descr

/-! ## The WebSocket URL sub-error (result.rs lines 170-197) -/

/-- WSUrlErrorKind from result.rs: the three URL-semantics violations. -/
inductive WSUrlErrorKind where
  | CannotSetFragment
  | InvalidScheme
  | NoHostName
  deriving DecidableEq, Repr

/-- Error::description for WSUrlErrorKind (result.rs lines 189-197). -/
def WSUrlErrorKind.description : WSUrlErrorKind → String
  | .CannotSetFragment => "WebSocket URL cannot set fragment"
  | .InvalidScheme => "WebSocket URL invalid scheme"
  | .NoHostName => "WebSocket URL no host name provided"

/-- fmt::Display for WSUrlErrorKind (result.rs lines 181-187): writes
"WebSocket Url Error: " then the description. -/
def WSUrlErrorKind.display (e : WSUrlErrorKind) : String :=
  "WebSocket Url Error: " ++ e.description

/-! ## The canonical error value (result.rs lines 36-63)

The TLS variants are compiled under the sync-ssl/async-ssl features; the
embedding models the full variant set (the configuration with secure
transport enabled, the one the TLS claims are about). -/

/-- WebSocketOtherError from result.rs. StatusCode is modelled by its
numeric code, which result.rs only stores. -/
inductive WebSocketOtherError where
  | ProtocolError (msg : String)
  | RequestError (msg : String)
  | ResponseError (msg : String)
  | StatusCodeError (code : Nat)
  | HttpError (e : HttpErr)
  | UrlError (e : ParseErr)
  | IoError (e : IoErr)
  | WebSocketUrlError (e : WSUrlErrorKind)
  | TlsError (e : TlsErr)
  | TlsHandshakeFailure
  | TlsHandshakeInterruption
  deriving DecidableEq, Repr

/-- Error::description for WebSocketOtherError (result.rs lines 74-91). -/
def WebSocketOtherError.description : WebSocketOtherError → String
  | .RequestError _ => "WebSocket request error"
  | .ResponseError _ => "WebSocket response error"
  | .HttpError _ => "HTTP failure"
  | .UrlError _ => "URL failure"
  | .TlsError _ => "TLS failure"
  | .TlsHandshakeFailure => "TLS Handshake failure"
  | .TlsHandshakeInterruption => "TLS Handshake interrupted"
  | .WebSocketUrlError _ => "WebSocket URL failure"
  | .IoError e => e.description
  | .ProtocolError e => e
  | .StatusCodeError _ => "Received unexpected status code"

/-- fmt::Display for WebSocketOtherError (result.rs lines 65-71): writes
"WebSocketError: " then the description. -/
def WebSocketOtherError.display (e : WebSocketOtherError) : String :=
  "WebSocketError: " ++ e.description

/-- The cause returned by Error::cause is a reference to the wrapped
collaborator error, as a trait object; modelled as a sum naming which
payload is exposed. -/
inductive ErrCause where
  | http (e : HttpErr)
  | url (e : ParseErr)
  | tls (e : TlsErr)
  | wsUrl (e : WSUrlErrorKind)
  | io (e : IoErr)
  deriving DecidableEq, Repr

/-- Error::cause for WebSocketOtherError (result.rs lines 93-103). -/
def WebSocketOtherError.cause : WebSocketOtherError → Option ErrCause
  | .HttpError e => some (.http e)
  | .UrlError e => some (.url e)
  | .TlsError e => some (.tls e)
  | .WebSocketUrlError e => some (.wsUrl e)
  | .IoError e => some (.io e)
  | _ => none

/-! ## Conversion rules into the canonical error (result.rs lines 106-168) -/

/-- From of hyper::Error (result.rs lines 106-110). -/
def WebSocketOtherError.fromHttpError (e : HttpErr) : WebSocketOtherError :=
  .HttpError e

/-- From of url::ParseError (result.rs lines 112-116). -/
def WebSocketOtherError.fromParseError (e : ParseErr) : WebSocketOtherError :=
  .UrlError e

/-- From of native_tls::Error (result.rs lines 118-123). -/
def WebSocketOtherError.fromTlsError (e : TlsErr) : WebSocketOtherError :=
  .TlsError e

/-- native_tls::HandshakeError, generic over the mid-handshake stream type S:
Failure carries the TLS error, WouldBlock carries the mid-handshake stream. -/
inductive TlsHandshakeError (S : Type) where
  | Failure (e : TlsErr)
  | WouldBlock (mid : S)

/-- From of TlsHandshakeError (result.rs lines 125-133): both payloads are
discarded, only the category is kept. -/
def WebSocketOtherError.fromTlsHandshakeError {S : Type} :
    TlsHandshakeError S → WebSocketOtherError
  | .Failure _ => .TlsHandshakeFailure
  | .WouldBlock _ => .TlsHandshakeInterruption

/-- The composite HTTP-codec failure (crate::codec::http::HttpCodecError),
whose two inner cases are read off the exhaustive match in result.rs
lines 138-141. -/
inductive HttpCodecError where
  | Io (e : IoErr)
  | Http (e : HttpErr)
  deriving DecidableEq, Repr

/-- From of HttpCodecError (result.rs lines 135-143). -/
def WebSocketOtherError.fromHttpCodecError : HttpCodecError → WebSocketOtherError
  | .Io e => .IoError e
  | .Http e => .HttpError e

/-- From of WSUrlErrorKind (result.rs lines 145-149). -/
def WebSocketOtherError.fromWSUrlErrorKind (e : WSUrlErrorKind) :
    WebSocketOtherError :=
  .WebSocketUrlError e

/-- The upgrade-negotiation failure type (crate::server::upgrade), declared
outside the given sources; its exact variant set and payload types are
reconstructed from the exhaustive, wildcard-free match in result.rs
lines 155-166 (Io carries io::Error, Parsing carries hyper::Error). -/
inductive HyperIntoWsError where
  | Io (e : IoErr)
  | Parsing (e : HttpErr)
  | MethodNotGet
  | UnsupportedHttpVersion
  | UnsupportedWebsocketVersion
  | NoSecWsKeyHeader
  | NoWsUpgradeHeader
  | NoUpgradeHeader
  | NoWsConnectionHeader
  | NoConnectionHeader
  deriving DecidableEq, Repr

/-- From of HyperIntoWsError (result.rs lines 151-168). -/
def WebSocketOtherError.fromHyperIntoWsError : HyperIntoWsError → WebSocketOtherError
  | .Io io => .IoError io
  | .Parsing err => .HttpError err
  | .MethodNotGet => .ProtocolError "Request method must be GET"
  | .UnsupportedHttpVersion => .ProtocolError "Unsupported request HTTP version"
  | .UnsupportedWebsocketVersion => .ProtocolError "Unsupported WebSocket version"
  | .NoSecWsKeyHeader => .ProtocolError "Missing Sec-WebSocket-Key header"
  | .NoWsUpgradeHeader => .ProtocolError "Invalid Upgrade WebSocket header"
  | .NoUpgradeHeader => .ProtocolError "Missing Upgrade WebSocket header"
  | .NoWsConnectionHeader => .ProtocolError "Invalid Connection WebSocket header"
  | .NoConnectionHeader => .ProtocolError "Missing Connection WebSocket header"

/-- Spec-side predicate: the target range the spec assigns to the
upgrade-negotiation conversion (Protocol error / Request-response error /
I/O failure / Upstream HTTP failure). -/
def WebSocketOtherError.inHyperTargetRange : WebSocketOtherError → Bool
  | .ProtocolError _ => true
  | .RequestError _ => true
  | .ResponseError _ => true
  | .IoError _ => true
  | .HttpError _ => true
  | _ => false

/-- Predicate picking out the three variants no conversion rule in
result.rs constructs: RequestError, ResponseError, StatusCodeError. -/
def WebSocketOtherError.isDirectOnlyVariant : WebSocketOtherError → Bool
  | .RequestError _ => true
  | .ResponseError _ => true
  | .StatusCodeError _ => true
  | _ => false

/-! ## The transport stream (stream.rs)

TcpStream handles and the shared Arc of an SslStream are modelled by ids;
every call stream.rs delegates to the OS / TLS library is an oracle in an
OsModel record. The Mutex around the SslStream is observed by stream.rs
only through lock(), whose poisoned outcome is the oracle lockPoisoned;
`.expect("lock")` on a poisoned lock is a panic, modelled by the panicked
outcome. -/

/-- Identifier of an OS-level TCP socket descriptor. -/
abbrev TcpHandle := Nat

/-- Identifier of one shared Arc-Mutex-SslStream cell; clones holding the
same id share the same underlying handle and lock. -/
abbrev SslHandle := Nat

/-- std::net::SocketAddr, opaque to stream.rs. -/
structure SocketAddr where
  addr : String
  deriving DecidableEq, Repr

/-- std::net::Shutdown. -/
inductive Shutdown where
  | Read
  | Write
  | Both
  deriving DecidableEq, Repr

/-- WebSocketStream from stream.rs lines 12-17: a TCP stream, or an
SSL-backed stream behind a shared Arc-Mutex cell. -/
inductive WebSocketStream where
  | Tcp (h : TcpHandle)
  | Ssl (arc : SslHandle)
  deriving DecidableEq, Repr

/-- The two variants of a WebSocketStream. -/
inductive StreamKind where
  | plain
  | secured
  deriving DecidableEq, Repr

/-- Which variant a stream value is. -/
def WebSocketStream.kind : WebSocketStream → StreamKind
  | .Tcp _ => .plain
  | .Ssl _ => .secured

/-- Result of one stream operation: a value, an io::Error, or a panic
(an uncontrolled abort of the calling thread). -/
inductive Outcome (α : Type) where
  | ok (a : α)
  | err (e : IoErr)
  | panicked (msg : String)
  deriving DecidableEq, Repr

/-- An io::Result from a delegated call, lifted into an Outcome. -/
def Outcome.ofExcept {α : Type} : Except IoErr α → Outcome α
  | .ok a => .ok a
  | .error e => .err e

/-- Oracles for every call stream.rs delegates: TcpStream methods, the
SslStream read/write/flush, lock poisoning, and SslStream::get_ref /
get_mut (the inner TcpStream wrapped by an SslStream). -/
structure OsModel where
  lockPoisoned : SslHandle → Bool
  sslInner : SslHandle → TcpHandle
  tcpRead : TcpHandle → Except IoErr Nat
  sslRead : SslHandle → Except IoErr Nat
  tcpWrite : TcpHandle → List Nat → Except IoErr Nat
  sslWrite : SslHandle → List Nat → Except IoErr Nat
  tcpFlush : TcpHandle → Except IoErr Unit
  sslFlush : SslHandle → Except IoErr Unit
  tcpPeerAddr : TcpHandle → Except IoErr SocketAddr
  tcpLocalAddr : TcpHandle → Except IoErr SocketAddr
  tcpSetNodelay : TcpHandle → Bool → Except IoErr Unit
  tcpSetKeepaliveMs : TcpHandle → Option Nat → Except IoErr Unit
  tcpShutdown : TcpHandle → Shutdown → Except IoErr Unit
  tcpTryClone : TcpHandle → Except IoErr TcpHandle
  tcpSetNonblocking : TcpHandle → Bool → Except IoErr Unit

/-- inner.lock().expect("lock") followed by body: a poisoned lock makes
lock() return Err(PoisonError), which expect turns into a panic. -/
def lockThen {α : Type} (os : OsModel) (arc : SslHandle)
    (body : Unit → Outcome α) : Outcome α :=
  if os.lockPoisoned arc then .panicked "lock" else body ()

/-- Read::read (stream.rs lines 19-26); the &mut self receiver is returned
as the call leaves it (the source never reassigns the enum). The buffer is
abstracted: the oracle yields the byte count read. -/
def WebSocketStream.read (s : WebSocketStream) (os : OsModel) :
    Outcome Nat × WebSocketStream :=
  match s with
  | .Tcp h => (.ofExcept (os.tcpRead h), .Tcp h)
  | .Ssl a => (lockThen os a fun _ => .ofExcept (os.sslRead a), .Ssl a)

/-- Write::write (stream.rs lines 29-34). -/
def WebSocketStream.write (s : WebSocketStream) (os : OsModel)
    (msg : List Nat) : Outcome Nat × WebSocketStream :=
  match s with
  | .Tcp h => (.ofExcept (os.tcpWrite h msg), .Tcp h)
  | .Ssl a => (lockThen os a fun _ => .ofExcept (os.sslWrite a msg), .Ssl a)

/-- Write::flush (stream.rs lines 36-41). -/
def WebSocketStream.flush (s : WebSocketStream) (os : OsModel) :
    Outcome Unit × WebSocketStream :=
  match s with
  | .Tcp h => (.ofExcept (os.tcpFlush h), .Tcp h)
  | .Ssl a => (lockThen os a fun _ => .ofExcept (os.sslFlush a), .Ssl a)

/-- peer_addr (stream.rs lines 46-51); on Ssl it locks, then delegates to
the inner TcpStream via get_ref(). -/
def WebSocketStream.peer_addr (s : WebSocketStream) (os : OsModel) :
    Outcome SocketAddr :=
  match s with
  | .Tcp h => .ofExcept (os.tcpPeerAddr h)
  | .Ssl a => lockThen os a fun _ => .ofExcept (os.tcpPeerAddr (os.sslInner a))

/-- local_addr (stream.rs lines 53-58). -/
def WebSocketStream.local_addr (s : WebSocketStream) (os : OsModel) :
    Outcome SocketAddr :=
  match s with
  | .Tcp h => .ofExcept (os.tcpLocalAddr h)
  | .Ssl a => lockThen os a fun _ => .ofExcept (os.tcpLocalAddr (os.sslInner a))

/-- set_nodelay (stream.rs lines 60-68); on Ssl it locks, then delegates to
the inner TcpStream via get_mut(). -/
def WebSocketStream.set_nodelay (s : WebSocketStream) (os : OsModel)
    (nodelay : Bool) : Outcome Unit × WebSocketStream :=
  match s with
  | .Tcp h => (.ofExcept (os.tcpSetNodelay h nodelay), .Tcp h)
  | .Ssl a =>
    (lockThen os a fun _ => .ofExcept (os.tcpSetNodelay (os.sslInner a) nodelay),
     .Ssl a)

/-- set_keepalive (stream.rs lines 70-78). -/
def WebSocketStream.set_keepalive (s : WebSocketStream) (os : OsModel)
    (delayMs : Option Nat) : Outcome Unit × WebSocketStream :=
  match s with
  | .Tcp h => (.ofExcept (os.tcpSetKeepaliveMs h delayMs), .Tcp h)
  | .Ssl a =>
    (lockThen os a fun _ =>
       .ofExcept (os.tcpSetKeepaliveMs (os.sslInner a) delayMs),
     .Ssl a)

/-- shutdown (stream.rs lines 80-88). -/
def WebSocketStream.shutdown (s : WebSocketStream) (os : OsModel)
    (how : Shutdown) : Outcome Unit × WebSocketStream :=
  match s with
  | .Tcp h => (.ofExcept (os.tcpShutdown h how), .Tcp h)
  | .Ssl a =>
    (lockThen os a fun _ => .ofExcept (os.tcpShutdown (os.sslInner a) how),
     .Ssl a)

/-- try_clone (stream.rs lines 90-95): Tcp duplicates the OS handle and
propagates its failure; Ssl clones the Arc, touching no oracle but the
handle itself. try_clone never locks, so it cannot panic. -/
def WebSocketStream.try_clone (s : WebSocketStream) (os : OsModel) :
    Except IoErr WebSocketStream :=
  match s with
  | .Tcp h => (os.tcpTryClone h).map .Tcp
  | .Ssl a => .ok (.Ssl a)

/-- set_nonblocking (stream.rs lines 98-103); on Ssl it locks, then
delegates to the inner TcpStream via get_ref(). -/
def WebSocketStream.set_nonblocking (s : WebSocketStream) (os : OsModel)
    (nonblocking : Bool) : Outcome Unit :=
  match s with
  | .Tcp h => .ofExcept (os.tcpSetNonblocking h nonblocking)
  | .Ssl a =>
    lockThen os a fun _ =>
      .ofExcept (os.tcpSetNonblocking (os.sslInner a) nonblocking)

/-- A concrete OS model whose every lock is poisoned and whose every
delegated call succeeds trivially: the failing scenario for the
lock-failure policy. -/
def poisonedOs : OsModel where
  lockPoisoned := fun _ => true
  sslInner := fun a => a
  tcpRead := fun _ => .ok 0
  sslRead := fun _ => .ok 0
  tcpWrite := fun _ msg => .ok msg.length
  sslWrite := fun _ msg => .ok msg.length
  tcpFlush := fun _ => .ok ()
  sslFlush := fun _ => .ok ()
  tcpPeerAddr := fun _ => .ok ⟨"127.0.0.1:80"⟩
  tcpLocalAddr := fun _ => .ok ⟨"127.0.0.1:9001"⟩
  tcpSetNodelay := fun _ _ => .ok ()
  tcpSetKeepaliveMs := fun _ _ => .ok ()
  tcpShutdown := fun _ _ => .ok ()
  tcpTryClone := fun h => .ok (h + 1)
  tcpSetNonblocking := fun _ _ => .ok ()

/-- A concrete healthy OS model: no lock poisoned, every delegated call
succeeds, and handle duplication yields a fresh descriptor id. -/
def healthyOs : OsModel :=
  { poisonedOs with lockPoisoned := fun _ => false }

/-! ## Theorems -/

/-- C1 (refuted by the code): the spec requires every operation on a
Secured stream to return an error value when the shared lock is poisoned;
the source instead calls lock().expect("lock"), so each of the nine
operations (read, write, flush, peer_addr, local_addr, set_nodelay,
set_keepalive, shutdown, set_nonblocking) panics with "lock" on a poisoned
lock rather than returning an error. Evaluated here at a Secured stream
whose lock is poisoned. -/
theorem ssl_ops_panic_on_poisoned_lock :
    ((WebSocketStream.Ssl 0).read poisonedOs).1 = .panicked "lock" ∧
    ((WebSocketStream.Ssl 0).write poisonedOs [1, 2]).1 = .panicked "lock" ∧
    ((WebSocketStream.Ssl 0).flush poisonedOs).1 = .panicked "lock" ∧
    (WebSocketStream.Ssl 0).peer_addr poisonedOs = .panicked "lock" ∧
    (WebSocketStream.Ssl 0).local_addr poisonedOs = .panicked "lock" ∧
    ((WebSocketStream.Ssl 0).set_nodelay poisonedOs true).1 = .panicked "lock" ∧
    ((WebSocketStream.Ssl 0).set_keepalive poisonedOs (some 1000)).1
      = .panicked "lock" ∧
    ((WebSocketStream.Ssl 0).shutdown poisonedOs .Both).1 = .panicked "lock" ∧
    (WebSocketStream.Ssl 0).set_nonblocking poisonedOs true = .panicked "lock" :=
  ⟨rfl, rfl, rfl, rfl, rfl, rfl, rfl, rfl, rfl⟩

/-- C2: every upgrade-negotiation failure converts into the
Protocol-error / Request-response-error / I/O-failure / Upstream-HTTP
range, the eight static defect messages are pairwise distinct (one static
message per specific defect), and the missing Sec-WebSocket-Key case
yields a Protocol error whose description is exactly
"Missing Sec-WebSocket-Key header" and whose Display output is exactly
"WebSocketError: Missing Sec-WebSocket-Key header". -/
theorem hyperIntoWs_conversion_spec :
    (∀ e : HyperIntoWsError,
      (WebSocketOtherError.fromHyperIntoWsError e).inHyperTargetRange = true) ∧
    List.Nodup
      ([HyperIntoWsError.MethodNotGet, .UnsupportedHttpVersion,
        .UnsupportedWebsocketVersion, .NoSecWsKeyHeader, .NoWsUpgradeHeader,
        .NoUpgradeHeader, .NoWsConnectionHeader, .NoConnectionHeader].map
        (fun e => (WebSocketOtherError.fromHyperIntoWsError e).description)) ∧
    WebSocketOtherError.fromHyperIntoWsError .NoSecWsKeyHeader
      = .ProtocolError "Missing Sec-WebSocket-Key header" ∧
    (WebSocketOtherError.fromHyperIntoWsError .NoSecWsKeyHeader).description
      = "Missing Sec-WebSocket-Key header" ∧
    (WebSocketOtherError.fromHyperIntoWsError .NoSecWsKeyHeader).display
      = "WebSocketError: Missing Sec-WebSocket-Key header" := by
  refine ⟨fun e => ?_, by decide, rfl, rfl, rfl⟩
  cases e <;> rfl

/-- C3: converting a TLS handshake error in Failure form yields the
terminal TlsHandshakeFailure variant with the original cause discarded,
converting one in WouldBlock form yields TlsHandshakeInterruption, and the
cause accessor returns none on both results. -/
theorem tlsHandshake_conversion_discards_cause :
    ∀ (S : Type) (e : TlsErr) (m : S),
      WebSocketOtherError.fromTlsHandshakeError
          (.Failure e : TlsHandshakeError S) = .TlsHandshakeFailure ∧
      WebSocketOtherError.fromTlsHandshakeError (.WouldBlock m)
          = .TlsHandshakeInterruption ∧
      (WebSocketOtherError.fromTlsHandshakeError
          (.Failure e : TlsHandshakeError S)).cause = none ∧
      (WebSocketOtherError.fromTlsHandshakeError (.WouldBlock m)).cause
          = none :=
  fun _ _ _ => ⟨rfl, rfl, rfl, rfl⟩

/-- C4: the cause accessor returns the wrapped underlying error for exactly
the HttpError, UrlError, TlsError, WebSocketUrlError and IoError variants,
and none for the static-message variants and the terminal TLS handshake
variants. -/
theorem cause_exactly_wrapping_variants :
    ∀ e : WebSocketOtherError,
      match e with
      | .HttpError x => e.cause = some (.http x)
      | .UrlError x => e.cause = some (.url x)
      | .TlsError x => e.cause = some (.tls x)
      | .WebSocketUrlError x => e.cause = some (.wsUrl x)
      | .IoError x => e.cause = some (.io x)
      | _ => e.cause = none := by
  intro e
  cases e <;> rfl

/-- C5: for every variant, Display output is exactly "WebSocketError: "
followed by the description, and the description is a fixed string per
variant except that IoError delegates to its wrapped payload's description
and ProtocolError returns its wrapped static message. -/
theorem display_is_header_plus_description :
    ∀ e : WebSocketOtherError,
      e.display = "WebSocketError: " ++ e.description ∧
      match e with
      | .IoError x => e.description = x.description
      | .ProtocolError s => e.description = s
      | .RequestError _ => e.description = "WebSocket request error"
      | .ResponseError _ => e.description = "WebSocket response error"
      | .StatusCodeError _ => e.description = "Received unexpected status code"
      | .HttpError _ => e.description = "HTTP failure"
      | .UrlError _ => e.description = "URL failure"
      | .WebSocketUrlError _ => e.description = "WebSocket URL failure"
      | .TlsError _ => e.description = "TLS failure"
      | .TlsHandshakeFailure => e.description = "TLS Handshake failure"
      | .TlsHandshakeInterruption => e.description = "TLS Handshake interrupted" := by
  intro e
  exact ⟨rfl, by cases e <;> rfl⟩

/-- C6: try_clone on a Secured stream always succeeds with a new Secured
value holding the very same shared cell, for every OS model; on a Plain
stream it returns exactly what OS handle duplication yields, wrapped as
Plain, so it can fail only when the OS duplication fails; and its result
depends on no oracle other than handle duplication (it performs no
network I/O). -/
theorem try_clone_contract :
    (∀ (os : OsModel) (a : SslHandle),
      (WebSocketStream.Ssl a).try_clone os = .ok (.Ssl a)) ∧
    (∀ (os : OsModel) (h : TcpHandle),
      (WebSocketStream.Tcp h).try_clone os
        = (os.tcpTryClone h).map WebSocketStream.Tcp) ∧
    (∀ (os os' : OsModel) (s : WebSocketStream),
      os.tcpTryClone = os'.tcpTryClone → s.try_clone os = s.try_clone os') := by
  refine ⟨fun _ _ => rfl, fun _ _ => rfl, fun os os' s hsame => ?_⟩
  cases s with
  | Tcp h => simp [WebSocketStream.try_clone, hsame]
  | Ssl a => rfl

/-- Witness for C6: two OS models agreeing on handle duplication give the
same try_clone result at a concrete Plain stream. -/
theorem try_clone_contract_witness :
    (WebSocketStream.Tcp 0).try_clone poisonedOs
      = (WebSocketStream.Tcp 0).try_clone healthyOs :=
  try_clone_contract.2.2 poisonedOs healthyOs (.Tcp 0) rfl

/-- C7: every operation returning the stream leaves its variant unchanged
(the source never reassigns the enum value); cloning a Plain stream yields
a Plain stream holding the descriptor produced by OS handle duplication (a
new, independent descriptor); and cloning a Secured stream yields a
Secured stream holding the same shared cell, hence the same underlying
handle and lock. -/
theorem variant_fixed_for_life :
    (∀ (os : OsModel) (s : WebSocketStream),
      ((s.read os).2).kind = s.kind ∧
      (∀ msg, ((s.write os msg).2).kind = s.kind) ∧
      ((s.flush os).2).kind = s.kind ∧
      (∀ b, ((s.set_nodelay os b).2).kind = s.kind) ∧
      (∀ d, ((s.set_keepalive os d).2).kind = s.kind) ∧
      (∀ how, ((s.shutdown os how).2).kind = s.kind)) ∧
    (∀ (os : OsModel) (h h' : TcpHandle),
      os.tcpTryClone h = .ok h' →
        (WebSocketStream.Tcp h).try_clone os = .ok (.Tcp h')) ∧
    (∀ (os : OsModel) (a : SslHandle),
      (WebSocketStream.Ssl a).try_clone os = .ok (.Ssl a)) := by
  refine ⟨fun os s => ?_, fun os h h' hdup => ?_, fun _ _ => rfl⟩
  · cases s <;>
      exact ⟨rfl, fun _ => rfl, rfl, fun _ => rfl, fun _ => rfl, fun _ => rfl⟩
  · simp [WebSocketStream.try_clone, hdup, Except.map]

/-- Witness for C7: under the healthy OS model, which duplicates handle 0
to handle 1, cloning the Plain stream on handle 0 yields the Plain stream
on handle 1. -/
theorem variant_fixed_for_life_witness :
    (WebSocketStream.Tcp 0).try_clone healthyOs = .ok (.Tcp 1) :=
  variant_fixed_for_life.2.1 healthyOs 0 1 rfl

/-- C8: converting a composite HTTP-codec failure yields the IoError
variant on its Io case and the HttpError variant on its Http case,
preserving the inner error as the payload (observable through the cause
accessor) in both cases. -/
theorem httpCodec_conversion_unwraps :
    ∀ (eio : IoErr) (eh : HttpErr),
      WebSocketOtherError.fromHttpCodecError (.Io eio) = .IoError eio ∧
      WebSocketOtherError.fromHttpCodecError (.Http eh) = .HttpError eh ∧
      (WebSocketOtherError.fromHttpCodecError (.Io eio)).cause
        = some (.io eio) ∧
      (WebSocketOtherError.fromHttpCodecError (.Http eh)).cause
        = some (.http eh) :=
  fun _ _ => ⟨rfl, rfl, rfl, rfl⟩

/-- C9: none of the seven conversion rules of result.rs ever constructs
the RequestError, ResponseError or StatusCodeError variants: every result
of every conversion lies outside those three, so they can only be built by
direct construction. -/
theorem conversions_never_build_direct_only_variants :
    (∀ e, (WebSocketOtherError.fromHttpError e).isDirectOnlyVariant = false) ∧
    (∀ e, (WebSocketOtherError.fromParseError e).isDirectOnlyVariant = false) ∧
    (∀ e, (WebSocketOtherError.fromTlsError e).isDirectOnlyVariant = false) ∧
    (∀ (S : Type) (e : TlsHandshakeError S),
      (WebSocketOtherError.fromTlsHandshakeError e).isDirectOnlyVariant
        = false) ∧
    (∀ e, (WebSocketOtherError.fromHttpCodecError e).isDirectOnlyVariant
        = false) ∧
    (∀ e, (WebSocketOtherError.fromWSUrlErrorKind e).isDirectOnlyVariant
        = false) ∧
    (∀ e, (WebSocketOtherError.fromHyperIntoWsError e).isDirectOnlyVariant
        = false) := by
  refine ⟨fun _ => rfl, fun _ => rfl, fun _ => rfl, fun S e => ?_,
    fun e => ?_, fun _ => rfl, fun e => ?_⟩
  · cases e <;> rfl
  · cases e <;> rfl
  · cases e <;> rfl

/-- C10: the WebSocket-URL sub-error Display output is exactly
"WebSocket Url Error: " followed by its description, the three
descriptions are the three fixed strings, and that header differs from the
canonical error's "WebSocketError: " header. -/
theorem wsUrl_display_has_own_header :
    (∀ k : WSUrlErrorKind,
      k.display = "WebSocket Url Error: " ++ k.description) ∧
    WSUrlErrorKind.CannotSetFragment.description
      = "WebSocket URL cannot set fragment" ∧
    WSUrlErrorKind.InvalidScheme.description
      = "WebSocket URL invalid scheme" ∧
    WSUrlErrorKind.NoHostName.description
      = "WebSocket URL no host name provided" ∧
    "WebSocket Url Error: " ≠ "WebSocketError: " :=
  ⟨fun _ => rfl, rfl, rfl, rfl, by decide⟩

end RustWebsocket
